import Mathlib

/-!
Verification of the Mercari shopping-assistant core (`tools.py`,
`mercari_scraper.py`) against its natural-language specification.

The Python code is shallowly embedded: product records (Python dicts) become
the `Product` structure with `Option` fields for possibly-absent keys, Python
string operations are re-implemented over `List Char` so that every definition
evaluates inside the kernel, float scores are modelled as exact rationals
(every score arithmetic relevant to the claims — tier constants, `100000 /
price` on the concrete inputs, halving — is exact in IEEE double as well),
and the stable `list.sort(key=..., reverse=True)` of CPython is modelled by a
stable descending insertion sort.
-/

/- ------------------------------------------------------------------ -/
/- String and number primitives mirroring the Python built-ins used.  -/
/- ------------------------------------------------------------------ -/

/-- Models Python `str.lower()` (ASCII case folding; the Japanese marker
strings used by the code are unaffected by lowercasing in both languages). -/
def lowerStr (s : String) : String := ⟨s.data.map Char.toLower⟩

/-- Helper for substring search: does `needle` occur in the list? -/
def substrAux (needle : List Char) : List Char → Bool
  | [] => needle.isEmpty
  | c :: t => needle.isPrefixOf (c :: t) || substrAux needle t

/-- Models Python `pat in s` (substring containment). -/
def containsStr (s pat : String) : Bool := substrAux pat.data s.data

/-- Models Python `s.startswith(pat)`. -/
def startsWithStr (s pat : String) : Bool := pat.data.isPrefixOf s.data

/-- Fuel-driven splitter underlying `splitOnStr`. -/
def splitFuel (sep : List Char) : Nat → List Char → List Char → List (List Char)
  | 0, l, acc => [acc.reverse ++ l]
  | f+1, l, acc =>
    match l with
    | [] => [acc.reverse]
    | c :: t =>
      if sep.isPrefixOf (c :: t) then
        acc.reverse :: splitFuel sep f (List.drop sep.length (c :: t)) []
      else
        splitFuel sep f t (c :: acc)

/-- Models Python `s.split(sep)` for a non-empty separator. -/
def splitOnStr (s sep : String) : List String :=
  (splitFuel sep.data (s.length + 1) s.data []).map List.asString

/-- Fuel-driven decimal digit expansion of a natural number. -/
def natToDigitsAux : Nat → Nat → List Char → List Char
  | 0, _, acc => acc
  | f+1, n, acc => if n < 10 then Nat.digitChar n :: acc
                   else natToDigitsAux f (n / 10) (Nat.digitChar (n % 10) :: acc)

/-- Decimal digits of a natural number, most significant first. -/
def natToDecimal (n : Nat) : List Char := natToDigitsAux (n + 1) n []

/-- Groups a little-endian digit list in threes with `,` separators. -/
def insertCommasRev : List Char → List Char
  | a :: b :: c :: d :: rest => a :: b :: c :: ',' :: insertCommasRev (d :: rest)
  | l => l

/-- Models Python `f"{n:,}"` for a natural number: decimal digits grouped in
thousands with commas. -/
def formatComma (n : Nat) : String :=
  List.asString (insertCommasRev (natToDecimal n).reverse).reverse

/-- Models Python `f"{i:,}"` for an integer. -/
def formatCommaInt (i : Int) : String :=
  if i < 0 then "-" ++ formatComma i.natAbs else formatComma i.natAbs

/-- Models Python `int(s)` on a (non-empty) string of decimal digits; returns
`0` on the empty string, matching the guarded use `int(x) if x else 0`. -/
def digitsToNat (ds : List Char) : Nat :=
  ds.foldl (fun acc c => acc * 10 + (c.toNat - 48)) 0

/- ------------------------------------------------------------------ -/
/- Data model: the product dict flowing between scraper and analyzer. -/
/- ------------------------------------------------------------------ -/

/-- A product record as built by `MercariScraper._extract_product_info` and
consumed by `analyze_products` (`tools.py`).  Python dict keys that may be
absent (or hold `None`) are modelled as `Option` fields; `none` is Python's
falsy absent/`None` state. -/
structure Product where
  id : Option String := none
  url : Option String := none
  name : Option String := none
  price : Int := 0
  price_display : Option String := none
  condition : Option String := none
  is_sold : Bool := false
deriving DecidableEq, Repr

/-- Truthiness of an optional string, as Python evaluates
`product.get('name')`: present and non-empty. -/
def truthyStr : Option String → Bool
  | some s => s ≠ ""
  | none => false

/-- User preferences passed to `analyze_products`: a dict read with
`.get('priority', 'balanced')` and `.get('max_budget')`. -/
structure Prefs where
  priority : Option String := none
  max_budget : Option Int := none
deriving DecidableEq, Repr

/-- The default (absent) preferences dict `{}`. -/
def defaultPrefs : Prefs := {}

/-- Effective priority: `user_preferences.get('priority', 'balanced')` after
the `None`-to-`{}` defaulting of `analyze_products`. -/
def effPriority (prefs : Option Prefs) : String :=
  ((prefs.getD defaultPrefs).priority).getD "balanced"

/-- Effective `max_budget`: `user_preferences.get('max_budget')`. -/
def mbOf (prefs : Option Prefs) : Option Int :=
  (prefs.getD defaultPrefs).max_budget

/-- Python truthiness of the fetched `max_budget` (`if max_budget:`):
`None` and `0` are falsy, every other integer is truthy. -/
def budgetActive : Option Int → Bool
  | some b => b ≠ 0
  | none => false

/-- A scored candidate: the dict
`{'product': ..., 'score': ..., 'reasons': ...}` built by
`analyze_products`. -/
structure Scored where
  product : Product
  score : ℚ
  reasons : List String
deriving DecidableEq, Repr

/-- A recommendation record as returned by `analyze_products`. -/
structure Recommendation where
  rank : Nat
  product : Product
  score : ℚ
  reasons : List String
  recommendation_summary : String
deriving DecidableEq, Repr

/-- The result dict of `analyze_products`: either
`{"success": False, "error": e, "recommendations": []}` or
`{"success": True, "total_analyzed": n, "priority": p,
"recommendations": recs}`. -/
inductive AnalyzeResult where
  | failure (error : String)
  | success (total_analyzed : Nat) (priority : String)
      (recommendations : List Recommendation)
deriving DecidableEq, Repr

/-- The `success` field of the result dict. -/
def AnalyzeResult.isSuccess : AnalyzeResult → Bool
  | .success _ _ _ => true
  | .failure _ => false

/-- The `recommendations` field of the result dict (both failure shapes carry
an empty list). -/
def AnalyzeResult.recs : AnalyzeResult → List Recommendation
  | .success _ _ r => r
  | .failure _ => []

/-- The `error` field, when present. -/
def AnalyzeResult.errorMsg : AnalyzeResult → Option String
  | .success _ _ _ => none
  | .failure e => some e

/-- The error string of the empty-input failure (`NoProducts`). -/
def noProductsError : String := "No products to analyze"

/-- The error string of the empty-after-budget failure
(`NoMatchingProducts`). -/
def noMatchError : String := "No products match the budget criteria"

/- ------------------------------------------------------------------ -/
/- The ranker: `analyze_products` and helpers (`tools.py`).           -/
/- ------------------------------------------------------------------ -/

/-- `_score_condition` (`tools.py` lines 208-227): fixed tier lookup on the
(lowercased) condition string, first match wins. -/
def score_condition (condition : String) : ℚ × String :=
  let c := lowerStr condition
  if containsStr c "新品" || containsStr c "new" then
    (100, "Excellent condition (new)")
  else if containsStr c "未使用" || containsStr c "unused" then
    (85, "Very good condition (unused)")
  else if containsStr c "目立った傷" || containsStr c "good" then
    (70, "Good condition")
  else
    (50, "Acceptable condition")

/-- The condition string the scorer sees for a product:
`product.get('condition', 'Not specified').lower()`. -/
def condStringOf (p : Product) : String := lowerStr (p.condition.getD "Not specified")

/-- The condition-tier score of a product (the first component of
`_score_condition` on its condition string). -/
def condTier (p : Product) : ℚ := (score_condition (condStringOf p)).1

/-- The completeness test for the +5 bonus:
`product.get('name') and product.get('price') and product.get('url')`. -/
def completeInfo (p : Product) : Bool :=
  truthyStr p.name && (p.price != 0) && truthyStr p.url

/-- Sold-availability filter with fallback (`tools.py` lines 258-262): drop
sold items, but if that empties the set fall back to the full input. -/
def availableAfterSold (products : List Product) : List Product :=
  let avail := products.filter (fun p => !p.is_sold)
  if avail.isEmpty then products else avail

/-- Budget filter (`tools.py` lines 264-266): applied only when `max_budget`
is truthy (given and non-zero). -/
def afterBudget (mb : Option Int) (l : List Product) : List Product :=
  match mb with
  | some b => if b = 0 then l else l.filter (fun p => p.price ≤ b)
  | none => l

/-- The product set `available_products` that survives both filters and is
actually analyzed. -/
def filteredProducts (products : List Product) (prefs : Option Prefs) : List Product :=
  afterBudget (mbOf prefs) (availableAfterSold products)

/-- `avg_price` (`tools.py` lines 276-278): arithmetic mean of the remaining
prices, computed only in `balanced` mode on a non-empty set. -/
def avgOf (priority : String) (l : List Product) : Option ℚ :=
  if priority = "balanced" ∧ ¬l.isEmpty = true then
    some ((((l.map (·.price)).sum : Int) : ℚ) / (l.length : ℚ))
  else none

/-- Per-product scoring (`tools.py` lines 283-333): priority-mode component,
then the +5 completeness bonus. -/
def scoreProduct (priority : String) (avg : Option ℚ) (p : Product) : Scored :=
  let price := p.price
  let condition := condStringOf p
  let base : ℚ × List String :=
    if priority = "price" then
      if 0 < price then
        ((100000 : ℚ) / (price : ℚ), ["Affordable price at ¥" ++ formatCommaInt price])
      else (0, [])
    else if priority = "condition" then
      let cs := score_condition condition
      (cs.1, [cs.2])
    else
      let cs := score_condition condition
      let priceComp : ℚ × List String :=
        match avg with
        | some a =>
          if 0 < price ∧ a ≠ 0 ∧ 0 < a then
            let ratio : ℚ := (price : ℚ) / a
            if ratio < 0.8 then (100, ["Great value - below average price"])
            else if ratio < 1.2 then (70, ["Fair price"])
            else (50, [])
          else (50, [])
        | none => (50, [])
      (cs.1 * 0.5 + priceComp.1 * 0.5, cs.2 :: priceComp.2)
  let final : ℚ × List String :=
    if completeInfo p then
      (base.1 + 5, base.2 ++ ["Complete product information available"])
    else base
  { product := p, score := final.1, reasons := final.2 }

/-- One step of the stable descending insertion sort: `x` (which precedes
every element of the already-sorted list in the original order) is placed
before the first element whose score does not exceed `x`'s, so equal-score
elements keep their original order. -/
def insertDesc (x : Scored) : List Scored → List Scored
  | [] => [x]
  | y :: ys => if y.score ≤ x.score then x :: y :: ys else y :: insertDesc x ys

/-- Models CPython `scored_products.sort(key=lambda x: x['score'],
reverse=True)`: a stable sort, descending by score (CPython's sort is stable
and `reverse=True` does not reorder equal keys). -/
def sortDesc : List Scored → List Scored
  | [] => []
  | x :: xs => insertDesc x (sortDesc xs)

/-- The scored candidates of one `analyze_products` call, in input order. -/
def scoredCandidates (products : List Product) (prefs : Option Prefs) : List Scored :=
  let priority := effPriority prefs
  let avail := filteredProducts products prefs
  avail.map (scoreProduct priority (avgOf priority avail))

/-- The scored candidates after the descending stable sort. -/
def rankedCandidates (products : List Product) (prefs : Option Prefs) : List Scored :=
  sortDesc (scoredCandidates products prefs)

/-- Builds `Recommendation` records from the top candidates,
with 1-based ranks (`enumerate(top_3, 1)`). -/
def mkRecsAux (i : Nat) : List Scored → List Recommendation
  | [] => []
  | s :: t =>
    { rank := i
      product := s.product
      score := s.score
      reasons := s.reasons
      recommendation_summary :=
        "Ranked #" ++ List.asString (natToDecimal i) ++ " - " ++ (s.product.name.getD "Unknown")
          ++ " at " ++ (s.product.price_display.getD "N/A") } :: mkRecsAux (i + 1) t

/-- The recommendation list built from the top-3 candidates. -/
def mkRecs (top : List Scored) : List Recommendation := mkRecsAux 1 top

/-- `analyze_products` (`tools.py` lines 230-357). -/
def analyze_products (products : List Product) (prefs : Option Prefs := none) :
    AnalyzeResult :=
  if products.isEmpty then .failure noProductsError
  else if (filteredProducts products prefs).isEmpty then .failure noMatchError
  else
    .success (filteredProducts products prefs).length (effPriority prefs)
      (mkRecs ((rankedCandidates products prefs).take 3))

/- ------------------------------------------------------------------ -/
/- The extractor: results-page and detail-page parsing                -/
/- (`mercari_scraper.py`).                                            -/
/- ------------------------------------------------------------------ -/

/-- The marketplace base URL (`MercariScraper.BASE_URL`). -/
def BASE_URL : String := "https://jp.mercari.com"

/-- The price element found by the selector cascade, if any: its stripped
display text (`get_text(strip=True)`) and its machine-readable `value`
attribute when present. -/
structure PriceElem where
  text : String := ""
  value : Option String := none
deriving DecidableEq, Repr

/-- Abstraction of one results-page item node, recording the outcome of each
BeautifulSoup query `_extract_product_info` performs on it.  The DOM queries
themselves (HTML parsing) are abstracted into these fields; all logic applied
to their results is embedded verbatim. -/
structure ItemNode where
  /-- `item.find('a', href=lambda x: x and '/item/' in str(x))`: the `href`
  of the first descendant anchor whose href is truthy and contains the
  item-path marker, if such an anchor exists. -/
  itemLinkHref : Option String := none
  /-- Whether the item node's own tag is `a` (`item.name == 'a'`). -/
  isAnchorTag : Bool := false
  /-- The item node's own `href` attribute, if present. -/
  selfHref : Option String := none
  /-- The stripped text of the title element resolved by the title cascade
  (`thumbnail-title` span / `h3` / `itemName`-class span), if one matched. -/
  title : Option String := none
  /-- Whether `item.find('img')` finds an image element. -/
  imgPresent : Bool := false
  /-- The `alt` attribute of that image, if present on it. -/
  imgAlt : Option String := none
  /-- The price element resolved by the price cascade, if one matched. -/
  priceElem : Option PriceElem := none
  /-- `item.find('div', {'aria-label': '売り切れ'})` finds something. -/
  ariaSold : Bool := false
  /-- `item.find('div', class_='sold')` finds something. -/
  classSold : Bool := false
  /-- `item.find(string='SOLD')` finds something. -/
  textSold : Bool := false
deriving DecidableEq, Repr

/-- Link resolution of `_extract_product_info` (lines 161-164): prefer a
descendant anchor containing the item-path marker; otherwise accept the item
node itself when it is an anchor (its own href, with no marker check). -/
def resolveLink (item : ItemNode) : Option String :=
  match item.itemLinkHref with
  | some h => some h
  | none => if item.isAnchorTag then item.selfHref else none

/-- The absolute URL built from an accepted href (line 168). -/
def absUrl (href : String) : String :=
  if startsWithStr href "http" then href else BASE_URL ++ href

/-- The item id derived from an href (line 169): the trailing segment after
the item-path marker, up to the first query-string delimiter; `"unknown"`
when the marker is absent. -/
def idFromHref (href : String) : String :=
  if containsStr href "/item/" then
    (splitOnStr ((splitOnStr href "/item/").getLastD "") "?").headD ""
  else "unknown"

/-- Name resolution (lines 174-189): title text, preferring the image alt
text when the title is suspiciously short; full fallback to the alt text and
then the literal. `none` models the Python `None` stored when an image exists
without an `alt` attribute. -/
def extractName (item : ItemNode) : Option String :=
  match item.title with
  | some t =>
    if item.imgPresent && truthyStr item.imgAlt && t.length < 3 then item.imgAlt
    else some t
  | none => if item.imgPresent then item.imgAlt else some "Unknown Product"

/-- Results-page price resolution (lines 198-208): display text, falling back
to the `value` attribute when the text is empty; all non-digit characters
stripped; empty digit string parses to `0`; `price_display` computed from the
parsed integer, or the `'N/A'` sentinel when no price element matched. -/
def summary_price (pe : Option PriceElem) : Nat × String :=
  match pe with
  | some e =>
    let priceText := if e.text = "" && e.value.isSome then e.value.getD "" else e.text
    let digits := priceText.data.filter Char.isDigit
    let p := digitsToNat digits
    (p, "¥" ++ formatComma p)
  | none => (0, "N/A")

/-- `MercariScraper._extract_product_info` (lines 158-223): returns `none`
(the item is dropped) exactly when no usable link resolves. -/
def extract_product_info (item : ItemNode) : Option Product :=
  match resolveLink item with
  | none => none
  | some href =>
    if href = "" then none
    else
      let pr := summary_price item.priceElem
      some
        { url := some (absUrl href)
          id := some (idFromHref href)
          name := extractName item
          price := (pr.1 : Int)
          price_display := some pr.2
          condition := some "See details"
          is_sold := item.ariaSold || item.classSold || item.textSold }

/-- `MercariScraper._extract_products` (lines 135-156): extract the first
`max_results` item nodes, silently skipping any that yield no record. -/
def extract_products (items : List ItemNode) (max_results : Nat) : List Product :=
  (items.take max_results).filterMap extract_product_info

/-- Detail-page price resolution (`get_product_details`, lines 275-287): the
`value` attribute is preferred when truthy, else the display text; then the
same digit stripping and formatting as on the results page. -/
def detail_extract_price (pe : Option PriceElem) : Nat × String :=
  match pe with
  | some e =>
    let priceText := match e.value with
      | some v => if v ≠ "" then v else e.text
      | none => e.text
    let digits := priceText.data.filter Char.isDigit
    let p := digitsToNat digits
    (p, "¥" ++ formatComma p)
  | none => (0, "N/A")

/- ------------------------------------------------------------------ -/
/- The query builder and the search tool surface.                     -/
/- ------------------------------------------------------------------ -/

/-- `MercariScraper._map_condition` (lines 225-233): fixed five-entry lookup
on the lowercased label; anything else maps to the empty code. -/
def map_condition (condition : String) : String :=
  let c := lowerStr condition
  if c = "new" then "1"
  else if c = "like_new" then "2"
  else if c = "good" then "3"
  else if c = "acceptable" then "4"
  else if c = "poor" then "5"
  else ""

/-- The ordered query parameters built by `search_products` (lines 89-99):
keyword and sort always present, each optional filter added only when its
argument is truthy (Python insertion-ordered dict). -/
def buildSearchParams (keyword : String) (sort : String)
    (min_price max_price : Option Int) (condition : Option String) :
    List (String × String) :=
  [("keyword", keyword), ("sort", sort)]
  ++ (match min_price with
      | some m => if m = 0 then [] else [("price_min", formatCommaInt m)]
      | none => [])
  ++ (match max_price with
      | some m => if m = 0 then [] else [("price_max", formatCommaInt m)]
      | none => [])
  ++ (match condition with
      | some c => if c = "" then [] else [("item_condition_id", map_condition c)]
      | none => [])

/-- The outcome of the external page fetch (navigation, wait, parse): either
the item nodes of the rendered results page, or a fetch/wait failure, which
`search_products` catches and converts to an empty product list. -/
inductive FetchOutcome where
  | ok (items : List ItemNode)
  | failed
deriving Repr

/-- `MercariScraper.search_products` (lines 75-133), with the external fetch
abstracted: builds the request, and on any fetch failure returns `[]`. -/
def search_products (keyword : String) (max_results : Nat)
    (min_price max_price : Option Int) (condition : Option String)
    (sort : String) (fetch : FetchOutcome) : List Product :=
  let _params := buildSearchParams keyword sort min_price max_price condition
  match fetch with
  | .ok items => extract_products items max_results
  | .failed => []

/-- The result dict of the `search_mercari` tool (`tools.py` lines 131-172). -/
structure SearchResult where
  success : Bool
  error : Option String := none
  keyword : String
  total_results : Nat
  products : List Product
deriving Repr

/-- `search_mercari` (`tools.py` lines 131-172): caps `max_results` at 50,
never validates the keyword, and reports success with whatever the scraper
returned (the scraper itself converts fetch failures to `[]`). -/
def search_mercari (keyword : String) (max_results : Nat := 20)
    (min_price max_price : Option Int := none) (sort : String := "created_time")
    (fetch : FetchOutcome := .failed) : SearchResult :=
  let products := search_products keyword (min max_results 50) min_price
    max_price none sort fetch
  { success := true
    error := none
    keyword := keyword
    total_results := products.length
    products := products }

/-- Two products that are identical except possibly for their `condition`
field (every other dict key equal). -/
def identicalExceptCondition (p q : Product) : Prop :=
  p.id = q.id ∧ p.url = q.url ∧ p.name = q.name ∧ p.price = q.price
    ∧ p.price_display = q.price_display ∧ p.is_sold = q.is_sold

/- ------------------------------------------------------------------ -/
/- Helper lemmas about the sort and the pipeline.                     -/
/- ------------------------------------------------------------------ -/

theorem insertDesc_perm (x : Scored) (l : List Scored) :
    List.Perm (insertDesc x l) (x :: l) := by
  induction l with
  | nil => simp [insertDesc]
  | cons y ys ih =>
    simp only [insertDesc]
    split
    · exact List.Perm.refl _
    · exact ((ih.cons y).trans (List.Perm.swap x y ys))

theorem sortDesc_perm (l : List Scored) : List.Perm (sortDesc l) l := by
  induction l with
  | nil => simp [sortDesc]
  | cons x xs ih => exact (insertDesc_perm x (sortDesc xs)).trans (ih.cons x)

theorem sortDesc_length (l : List Scored) : (sortDesc l).length = l.length :=
  (sortDesc_perm l).length_eq

theorem mem_sortDesc {a : Scored} {l : List Scored} : a ∈ sortDesc l ↔ a ∈ l :=
  (sortDesc_perm l).mem_iff

theorem insertDesc_pairwise (x : Scored) (l : List Scored)
    (h : l.Pairwise (fun a b => b.score ≤ a.score)) :
    (insertDesc x l).Pairwise (fun a b => b.score ≤ a.score) := by
  induction l with
  | nil => simp [insertDesc]
  | cons y ys ih =>
    rw [List.pairwise_cons] at h
    simp only [insertDesc]
    split
    · rename_i hxy
      rw [List.pairwise_cons]
      refine ⟨fun z hz => ?_, List.pairwise_cons.mpr h⟩
      rcases List.mem_cons.mp hz with rfl | hz'
      · exact hxy
      · exact le_trans (h.1 z hz') hxy
    · rename_i hxy
      rw [List.pairwise_cons]
      refine ⟨fun z hz => ?_, ih h.2⟩
      rcases List.mem_cons.mp ((insertDesc_perm x ys).mem_iff.mp hz) with rfl | hz'
      · exact le_of_lt (not_le.mp hxy)
      · exact h.1 z hz'

theorem sortDesc_pairwise (l : List Scored) :
    (sortDesc l).Pairwise (fun a b => b.score ≤ a.score) := by
  induction l with
  | nil => simp [sortDesc]
  | cons x xs ih => exact insertDesc_pairwise x (sortDesc xs) ih

theorem insertDesc_filter_score (x : Scored) (l : List Scored) (c : ℚ) :
    (insertDesc x l).filter (fun s => decide (s.score = c)) =
      if x.score = c then x :: l.filter (fun s => decide (s.score = c))
      else l.filter (fun s => decide (s.score = c)) := by
  induction l with
  | nil => by_cases hx : x.score = c <;> simp [insertDesc, hx]
  | cons y ys ih =>
    simp only [insertDesc]
    by_cases hyx : y.score ≤ x.score
    · rw [if_pos hyx]
      by_cases hx : x.score = c <;> simp [List.filter_cons, hx]
    · rw [if_neg hyx]
      by_cases hx : x.score = c
      · have hy : ¬(y.score = c) := fun hy => hyx (le_of_eq (hy.trans hx.symm))
        simp [List.filter_cons, hx, hy, ih]
      · by_cases hy : y.score = c <;> simp [List.filter_cons, hx, hy, ih]

theorem sortDesc_filter_score (l : List Scored) (c : ℚ) :
    (sortDesc l).filter (fun s => decide (s.score = c)) =
      l.filter (fun s => decide (s.score = c)) := by
  induction l with
  | nil => simp [sortDesc]
  | cons x xs ih =>
    simp only [sortDesc]
    rw [insertDesc_filter_score]
    by_cases hx : x.score = c <;> simp [List.filter_cons, hx, ih]

theorem scoreProduct_product (priority : String) (avg : Option ℚ) (p : Product) :
    (scoreProduct priority avg p).product = p := rfl

theorem scoreProduct_condition_score (avg : Option ℚ) (p : Product) :
    (scoreProduct "condition" avg p).score =
      condTier p + (if completeInfo p then (5 : ℚ) else 0) := by
  simp only [scoreProduct]
  cases hc : completeInfo p <;> simp [hc, condTier]

theorem mkRecsAux_length (i : Nat) (top : List Scored) :
    (mkRecsAux i top).length = top.length := by
  induction top generalizing i with
  | nil => simp [mkRecsAux]
  | cons s t ih => simp [mkRecsAux, ih]

theorem mkRecsAux_product_mem (i : Nat) (top : List Scored) (r : Recommendation)
    (h : r ∈ mkRecsAux i top) : r.product ∈ top.map (·.product) := by
  induction top generalizing i with
  | nil => simp [mkRecsAux] at h
  | cons s t ih =>
    simp only [mkRecsAux, List.mem_cons] at h
    rcases h with rfl | h
    · simp
    · simp only [List.map_cons, List.mem_cons]
      exact Or.inr (ih (i + 1) h)

theorem afterBudget_subset (mb : Option Int) (l : List Product) :
    afterBudget mb l ⊆ l := by
  cases mb with
  | none => simp [afterBudget]
  | some b =>
    by_cases hb : b = 0
    · simp [afterBudget, hb]
    · simp only [afterBudget, if_neg hb]
      exact fun a ha => List.mem_of_mem_filter ha

theorem availableAfterSold_subset (ps : List Product) :
    availableAfterSold ps ⊆ ps := by
  simp only [availableAfterSold]
  split
  · exact fun _ h => h
  · exact fun a ha => List.mem_of_mem_filter ha

theorem filteredProducts_subset (ps : List Product) (prefs : Option Prefs) :
    filteredProducts ps prefs ⊆ ps :=
  fun _ h => availableAfterSold_subset ps (afterBudget_subset _ _ h)

theorem availableAfterSold_ne_nil (ps : List Product) (h : ps ≠ []) :
    availableAfterSold ps ≠ [] := by
  simp only [availableAfterSold]
  split
  · exact h
  · rename_i hne
    simpa [List.isEmpty_iff] using hne

theorem afterBudget_inactive (mb : Option Int) (l : List Product)
    (h : budgetActive mb = false) : afterBudget mb l = l := by
  cases mb with
  | none => rfl
  | some b =>
    simp only [budgetActive, ne_eq, decide_not, Bool.not_eq_false',
      decide_eq_true_eq] at h
    simp [afterBudget, h]

theorem analyze_success_form (ps : List Product) (prefs : Option Prefs)
    (h1 : ps ≠ []) (h2 : filteredProducts ps prefs ≠ []) :
    analyze_products ps prefs =
      .success (filteredProducts ps prefs).length (effPriority prefs)
        (mkRecs ((rankedCandidates ps prefs).take 3)) := by
  simp [analyze_products, List.isEmpty_iff, h1, h2]

theorem recs_product_mem (ps : List Product) (prefs : Option Prefs)
    (r : Recommendation) (h : r ∈ mkRecs ((rankedCandidates ps prefs).take 3)) :
    r.product ∈ ps := by
  have h1 := mkRecsAux_product_mem 1 _ r h
  obtain ⟨s, hs, hsp⟩ := List.mem_map.mp h1
  have hs' : s ∈ rankedCandidates ps prefs := List.mem_of_mem_take hs
  have hs'' : s ∈ scoredCandidates ps prefs := mem_sortDesc.mp hs'
  obtain ⟨p, hp, rfl⟩ := List.mem_map.mp hs''
  rw [← hsp, scoreProduct_product]
  exact filteredProducts_subset ps prefs hp

/-- C2: `analyze_products` fails exactly two ways, both as structured results
of a total function (the embedding is total, so no exception escapes): the
empty input yields the `NoProducts` error; a non-empty input with a truthy
(given, non-zero — Python `if max_budget:`) budget whose filter empties the
analyzed set yields the distinct `NoMatchingProducts` error; every other
input succeeds.  The budget filter applies to the set that survives the
sold-filter-with-fallback step, as specified in the ranking algorithm. -/
theorem C2_analyze_failure_modes (ps : List Product) (prefs : Option Prefs) :
    (ps = [] → analyze_products ps prefs = .failure noProductsError)
    ∧ (ps ≠ [] → budgetActive (mbOf prefs) = true → filteredProducts ps prefs = [] →
        analyze_products ps prefs = .failure noMatchError)
    ∧ (ps ≠ [] → ¬(budgetActive (mbOf prefs) = true ∧ filteredProducts ps prefs = []) →
        (analyze_products ps prefs).isSuccess = true)
    ∧ noProductsError ≠ noMatchError := by
  refine ⟨fun h => by simp [analyze_products, h], fun hne _ hf => ?_, fun hne hnb => ?_, by decide⟩
  · simp [analyze_products, List.isEmpty_iff, hne, hf]
  · have hfil : filteredProducts ps prefs ≠ [] := by
      by_cases hb : budgetActive (mbOf prefs) = true
      · exact fun hf => hnb ⟨hb, hf⟩
      · have hb' : budgetActive (mbOf prefs) = false := by
          revert hb; cases budgetActive (mbOf prefs) <;> simp
        rw [filteredProducts, afterBudget_inactive _ _ hb']
        exact availableAfterSold_ne_nil ps hne
    rw [analyze_success_form ps prefs hne hfil]
    rfl

theorem C2_analyze_failure_modes_witness :
    analyze_products [] none = .failure noProductsError
    ∧ analyze_products [{ price := 500 }] (some { max_budget := some 100 })
        = .failure noMatchError
    ∧ (analyze_products [{ price := 500 }] none).isSuccess = true :=
  ⟨(C2_analyze_failure_modes [] none).1 rfl,
   (C2_analyze_failure_modes [{ price := 500 }]
      (some { max_budget := some 100 })).2.1 (by decide) (by decide) (by decide),
   (C2_analyze_failure_modes [{ price := 500 }] none).2.2.1 (by decide) (by decide)⟩

/-- C10: a given `maxBudget` of `0` is falsy in Python (`if max_budget:`), so
`analyze_products` skips the budget filter entirely: the call behaves exactly
as with no budget at all, and in particular succeeds on every non-empty
input (never failing with `NoMatchingProducts`). -/
theorem C10_zero_budget_skips_filter (ps : List Product) (prio : Option String)
    (h : ps ≠ []) :
    analyze_products ps (some { priority := prio, max_budget := some 0 })
      = analyze_products ps (some { priority := prio, max_budget := none })
    ∧ (analyze_products ps (some { priority := prio, max_budget := some 0 })).isSuccess
        = true := by
  have h0 : filteredProducts ps (some { priority := prio, max_budget := some 0 })
      = availableAfterSold ps := by
    rw [filteredProducts]; exact afterBudget_inactive _ _ rfl
  have hn : filteredProducts ps (some { priority := prio, max_budget := none })
      = availableAfterSold ps := by
    rw [filteredProducts]; exact afterBudget_inactive _ _ rfl
  have hne0 : filteredProducts ps (some { priority := prio, max_budget := some 0 }) ≠ [] := by
    rw [h0]; exact availableAfterSold_ne_nil ps h
  have hnen : filteredProducts ps (some { priority := prio, max_budget := none }) ≠ [] := by
    rw [hn]; exact availableAfterSold_ne_nil ps h
  constructor
  · rw [analyze_success_form ps _ h hne0, analyze_success_form ps _ h hnen]
    rw [rankedCandidates, rankedCandidates, scoredCandidates, scoredCandidates, h0, hn]
    rfl
  · rw [analyze_success_form ps _ h hne0]
    rfl

theorem C10_zero_budget_skips_filter_witness :
    analyze_products [{ price := 999999 }] (some { max_budget := some 0 })
      = analyze_products [{ price := 999999 }] (some { max_budget := none })
    ∧ (analyze_products [{ price := 999999 }]
        (some { max_budget := some 0 })).isSuccess = true :=
  C10_zero_budget_skips_filter [{ price := 999999 }] none (by decide)

/-- C3: on a non-empty input consisting entirely of sold items the sold
filter empties the set and `analyze_products` falls back to the full input
(conjunct `availableAfterSold ps = ps`); provided no budget constraint
excludes them (the budget step leaves the analyzed set non-empty), the call
succeeds and returns `min 3 n` recommendations, all drawn from the (sold)
input items. -/
theorem C3_sold_fallback (ps : List Product) (prefs : Option Prefs)
    (hne : ps ≠ []) (hsold : ∀ p ∈ ps, p.is_sold = true)
    (hbud : filteredProducts ps prefs ≠ []) :
    availableAfterSold ps = ps
    ∧ (analyze_products ps prefs).isSuccess = true
    ∧ (analyze_products ps prefs).recs.length = min 3 (filteredProducts ps prefs).length
    ∧ ∀ r ∈ (analyze_products ps prefs).recs, r.product ∈ ps := by
  have hfall : availableAfterSold ps = ps := by
    have hfe : ps.filter (fun p => !p.is_sold) = [] := by
      rw [List.filter_eq_nil_iff]
      intro p hp
      simp [hsold p hp]
    simp [availableAfterSold, hfe]
  have hform := analyze_success_form ps prefs hne hbud
  refine ⟨hfall, by rw [hform]; rfl, ?_, ?_⟩
  · rw [hform]
    show (mkRecs ((rankedCandidates ps prefs).take 3)).length = _
    rw [mkRecs, mkRecsAux_length, List.length_take, rankedCandidates, sortDesc_length]
    simp [scoredCandidates]
  · rw [hform]
    exact fun r hr => recs_product_mem ps prefs r hr

theorem C3_sold_fallback_witness :
    availableAfterSold [{ price := 800, is_sold := true },
        { price := 900, is_sold := true }]
      = [{ price := 800, is_sold := true }, { price := 900, is_sold := true }]
    ∧ (analyze_products [{ price := 800, is_sold := true },
        { price := 900, is_sold := true }] none).isSuccess = true
    ∧ (analyze_products [{ price := 800, is_sold := true },
        { price := 900, is_sold := true }] none).recs.length
        = min 3 (filteredProducts [{ price := 800, is_sold := true },
            { price := 900, is_sold := true }] none).length
    ∧ ∀ r ∈ (analyze_products [{ price := 800, is_sold := true },
        { price := 900, is_sold := true }] none).recs,
        r.product ∈ [{ price := 800, is_sold := true },
          { price := 900, is_sold := true }] :=
  C3_sold_fallback _ none (by decide) (by decide) (by decide)

/-- C4: the ranking sort of `analyze_products` is a stable descending sort by
score: the sorted candidate list is a permutation of the scored candidates
(which are the filtered input products, scored in input order), it is
descending in score, and — stability — for every score value the equal-score
candidates appear in the same relative order as in the (filtered) input.
The final conjunct ties the sort to `analyze_products` itself: every
successful result's recommendations are built from the first three sorted
candidates. -/
theorem C4_stable_descending_sort (ps : List Product) (prefs : Option Prefs) (c : ℚ) :
    List.Perm (rankedCandidates ps prefs) (scoredCandidates ps prefs)
    ∧ (rankedCandidates ps prefs).Pairwise (fun a b => b.score ≤ a.score)
    ∧ (rankedCandidates ps prefs).filter (fun s => decide (s.score = c))
        = (scoredCandidates ps prefs).filter (fun s => decide (s.score = c))
    ∧ (analyze_products ps prefs = .failure noProductsError
        ∨ analyze_products ps prefs = .failure noMatchError
        ∨ analyze_products ps prefs =
            .success (filteredProducts ps prefs).length (effPriority prefs)
              (mkRecs ((rankedCandidates ps prefs).take 3))) := by
  refine ⟨sortDesc_perm _, sortDesc_pairwise _, sortDesc_filter_score _ _, ?_⟩
  by_cases h1 : ps = []
  · exact Or.inl (by simp [analyze_products, h1])
  · by_cases h2 : filteredProducts ps prefs = []
    · exact Or.inr (Or.inl (by simp [analyze_products, List.isEmpty_iff, h1, h2]))
    · exact Or.inr (Or.inr (analyze_success_form ps prefs h1 h2))

/-- C6: with priority `"condition"` the ranking is monotone in the condition
tier: in the sorted candidate list, whenever a candidate appears after
another candidate whose product is identical except for the condition field,
the later one's condition-tier score never strictly exceeds the earlier
one's (a strictly higher tier is never ranked below a lower one).  The
concrete conjuncts pin the tier table of `_score_condition`: new-marker 100,
unused-marker 85, no-visible-flaws-marker 70, everything else 50, first
match winning. -/
theorem C6_condition_tier_monotone :
    (∀ (ps : List Product) (prefs : Option Prefs),
      effPriority prefs = "condition" →
      (rankedCandidates ps prefs).Pairwise
        (fun a b => identicalExceptCondition a.product b.product →
          condTier b.product ≤ condTier a.product))
    ∧ (score_condition "new").1 = 100
    ∧ (score_condition "新品").1 = 100
    ∧ (score_condition "unused").1 = 85
    ∧ (score_condition "未使用").1 = 85
    ∧ (score_condition "目立った傷や汚れなし").1 = 70
    ∧ (score_condition "worn out").1 = 50
    ∧ (score_condition "brand new unused").1 = 100 := by
  refine ⟨?_, by decide, by decide, by decide, by decide, by decide, by decide, by decide⟩
  intro ps prefs hpr
  have hpw := sortDesc_pairwise (scoredCandidates ps prefs)
  refine List.Pairwise.imp_of_mem ?_ hpw
  intro a b ha hb hscore hid
  have ha' : a ∈ scoredCandidates ps prefs := mem_sortDesc.mp ha
  have hb' : b ∈ scoredCandidates ps prefs := mem_sortDesc.mp hb
  obtain ⟨p, hp, rfl⟩ := List.mem_map.mp ha'
  obtain ⟨q, hq, rfl⟩ := List.mem_map.mp hb'
  rw [scoreProduct_product, scoreProduct_product] at hid
  rw [hpr] at hscore
  rw [scoreProduct_condition_score, scoreProduct_condition_score] at hscore
  have hbonus : completeInfo q = completeInfo p := by
    rw [completeInfo, completeInfo, hid.2.2.1, hid.2.2.2.1, hid.2.1]
  rw [scoreProduct_product, scoreProduct_product]
  rw [hbonus] at hscore
  exact le_of_add_le_add_right hscore

theorem C6_condition_tier_monotone_witness :
    (rankedCandidates
        [{ price := 3000, condition := some "目立った傷や汚れなし" },
         { price := 3000, condition := some "新品、未使用" }]
        (some { priority := some "condition" })).Pairwise
      (fun a b => identicalExceptCondition a.product b.product →
        condTier b.product ≤ condTier a.product) :=
  C6_condition_tier_monotone.1
    [{ price := 3000, condition := some "目立った傷や汚れなし" },
     { price := 3000, condition := some "新品、未使用" }]
    (some { priority := some "condition" }) rfl

/-- C7 counterexample: the claim states that an item node with no anchor
whose href contains the item-path marker is dropped.  But when the item node
is itself an anchor, `_extract_product_info` accepts the node's own href
without checking it for the marker: this node has no descendant item-anchor
and its own href `"/foo"` does not contain `"/item/"`, yet a record (with
id `"unknown"`) is emitted. -/
theorem C7_drop_without_link_counterexample :
    containsStr "/foo" "/item/" = false
    ∧ ({ isAnchorTag := true, selfHref := some "/foo",
          title := some "Widget" } : ItemNode).itemLinkHref = none
    ∧ extract_products
        [{ isAnchorTag := true, selfHref := some "/foo", title := some "Widget" }] 20
        = [{ id := some "unknown", url := some "https://jp.mercari.com/foo",
             name := some "Widget", price := 0, price_display := some "N/A",
             condition := some "See details", is_sold := false }] := by
  decide

/-- C7 (amended): a results-page item node is dropped silently — absent from
the output with every other item still extracted, and no failure — exactly
when no descendant anchor has the item-path marker in its href AND the node
is not itself an anchor carrying a truthy href.  (The claim's condition,
"no anchor whose href contains the item-path marker", is too weak: a node
that is itself an anchor is accepted without the marker check.) -/
theorem C7_drop_without_link_amended (node : ItemNode) (pre suf : List ItemNode)
    (k : Nat) (h1 : node.itemLinkHref = none)
    (h2 : node.isAnchorTag = false ∨ node.selfHref = none ∨ node.selfHref = some "")
    (hk : pre.length + suf.length + 1 ≤ k) :
    extract_product_info node = none
    ∧ extract_products (pre ++ node :: suf) k = extract_products (pre ++ suf) k := by
  have hdrop : extract_product_info node = none := by
    rw [extract_product_info, resolveLink, h1]
    rcases h2 with h2 | h2 | h2
    · simp [h2]
    · simp [h2]
    · cases ha : node.isAnchorTag <;> simp [h2]
  refine ⟨hdrop, ?_⟩
  have hl1 : (pre ++ node :: suf).length ≤ k := by
    simp only [List.length_append, List.length_cons]
    omega
  have hl2 : (pre ++ suf).length ≤ k := by
    simp only [List.length_append]
    omega
  rw [extract_products, extract_products, List.take_of_length_le hl1,
    List.take_of_length_le hl2, List.filterMap_append, List.filterMap_append,
    List.filterMap_cons, hdrop]

theorem C7_drop_without_link_amended_witness :
    extract_product_info { title := some "NoLink" } = none
    ∧ extract_products
        [{ itemLinkHref := some "/item/m1", title := some "Good" },
         { title := some "NoLink" },
         { itemLinkHref := some "/item/m2", title := some "AlsoGood" }] 20
      = extract_products
        [{ itemLinkHref := some "/item/m1", title := some "Good" },
         { itemLinkHref := some "/item/m2", title := some "AlsoGood" }] 20 :=
  C7_drop_without_link_amended { title := some "NoLink" }
    [{ itemLinkHref := some "/item/m1", title := some "Good" }]
    [{ itemLinkHref := some "/item/m2", title := some "AlsoGood" }] 20
    rfl (Or.inl rfl) (by decide)

/-- C8: every condition label outside the five-entry table maps to the empty
filter code, without error (the lookup is total); the built request then
carries an `item_condition_id` parameter with the empty value — identical
for every unrecognized label, hence constraining nothing — appended to the
exact request built with no condition at all (and the empty-string label,
being falsy, adds no parameter whatsoever). -/
theorem C8_unknown_condition_no_filter (label : String)
    (h : lowerStr label ∉ ["new", "like_new", "good", "acceptable", "poor"]) :
    map_condition label = ""
    ∧ ∀ (kw sort : String) (mn mx : Option Int),
        (label ≠ "" →
          buildSearchParams kw sort mn mx (some label)
            = buildSearchParams kw sort mn mx none ++ [("item_condition_id", "")])
        ∧ (label = "" →
          buildSearchParams kw sort mn mx (some label)
            = buildSearchParams kw sort mn mx none) := by
  simp only [List.mem_cons, List.mem_singleton, not_or] at h
  obtain ⟨h1, h2, h3, h4, h5, -⟩ := h
  have hmap : map_condition label = "" := by
    simp only [map_condition]
    rw [if_neg h1, if_neg h2, if_neg h3, if_neg h4, if_neg h5]
  refine ⟨hmap, fun kw sort mn mx => ⟨fun hne => ?_, fun he => ?_⟩⟩
  · simp [buildSearchParams, hne, hmap]
  · simp [buildSearchParams, he]

theorem C8_unknown_condition_no_filter_witness :
    map_condition "mint" = ""
    ∧ buildSearchParams "iPhone" "created_time" none none (some "mint")
        = buildSearchParams "iPhone" "created_time" none none none
          ++ [("item_condition_id", "")] :=
  ⟨(C8_unknown_condition_no_filter "mint" (by decide)).1,
   ((C8_unknown_condition_no_filter "mint" (by decide)).2
      "iPhone" "created_time" none none).1 (by decide)⟩

/-- C9 counterexample: the claim states that search fails with
`InvalidArgument` when the keyword is empty.  The code performs no keyword
validation at all: with the empty keyword, `search_mercari` builds a normal
request whose keyword parameter is empty and reports success with no error
field. -/
theorem C9_empty_keyword_counterexample :
    (search_mercari "" 20 none none "created_time" (.ok [])).success = true
    ∧ (search_mercari "" 20 none none "created_time" (.ok [])).error = none
    ∧ (search_mercari "" 20 none none "created_time" (.ok [])).products = []
    ∧ buildSearchParams "" "created_time" none none none
        = [("keyword", ""), ("sort", "created_time")] :=
  ⟨rfl, rfl, rfl, rfl⟩

/-- C9 (amended): `search_mercari` / `search_products` never fail with
`InvalidArgument` — the keyword is not validated: for every keyword,
including the empty string, the request simply carries the keyword as its
first parameter and the operation reports success (fetch failures having
been converted to an empty product list inside the scraper). -/
theorem C9_no_invalid_argument (kw : String) (mr : Nat) (mn mx : Option Int)
    (sort : String) (fetch : FetchOutcome) :
    (search_mercari kw mr mn mx sort fetch).success = true
    ∧ (search_mercari kw mr mn mx sort fetch).error = none
    ∧ (buildSearchParams kw sort mn mx none).head? = some ("keyword", kw) :=
  ⟨rfl, rfl, rfl⟩

theorem extract_price_fields (n : ItemNode) (r : Product)
    (h : extract_product_info n = some r) :
    r.price = ((summary_price n.priceElem).1 : Int)
    ∧ r.price_display = some (summary_price n.priceElem).2 := by
  rw [extract_product_info] at h
  cases hl : resolveLink n with
  | none => rw [hl] at h; cases h
  | some href =>
    rw [hl] at h
    dsimp only at h
    by_cases hh : href = ""
    · rw [if_pos hh] at h; cases h
    · rw [if_neg hh] at h
      cases h
      exact ⟨rfl, rfl⟩

theorem summary_price_display (pe : PriceElem) :
    (summary_price (some pe)).2 = "¥" ++ formatComma (summary_price (some pe)).1 := rfl

theorem detail_price_display (pe : PriceElem) :
    (detail_extract_price (some pe)).2
      = "¥" ++ formatComma (detail_extract_price (some pe)).1 := rfl

/-- C1 counterexample: `priceDisplay` is not a pure function of `price`
across all emitted records.  Two emitted summary records with equal `price`
(both `0`) carry different `priceDisplay` values: a price element whose text
contains no digit yields `price = 0` with display `"¥0"`, while an item with
no price element at all yields `price = 0` with the sentinel `"N/A"`. -/
theorem C1_priceDisplay_counterexample :
    (extract_product_info
        { itemLinkHref := some "/item/m111", priceElem := some { text := "SOLD" } }).map
        (·.price)
      = (extract_product_info { itemLinkHref := some "/item/m222" }).map (·.price)
    ∧ (extract_product_info
        { itemLinkHref := some "/item/m111", priceElem := some { text := "SOLD" } }).map
        (·.price_display)
      ≠ (extract_product_info { itemLinkHref := some "/item/m222" }).map
          (·.price_display) := by
  decide

/-- C1 (amended): `priceDisplay` is a pure function of `price` together with
whether a price element was found.  Among emitted records whose price element
was found, equal `price` implies equal `priceDisplay`, and the display is the
currency-prefixed thousands-grouped rendering of the price (price 12345
displays as `"¥12,345"`); records with no price element get `price = 0` and
the sentinel `"N/A"` instead.  The detail-page price extraction satisfies the
same discipline. -/
theorem C1_priceDisplay_amended :
    (∀ (n₁ n₂ : ItemNode) (r₁ r₂ : Product),
        extract_product_info n₁ = some r₁ → extract_product_info n₂ = some r₂ →
        n₁.priceElem.isSome = true → n₂.priceElem.isSome = true →
        r₁.price = r₂.price → r₁.price_display = r₂.price_display)
    ∧ (∀ (n : ItemNode) (r : Product) (pe : PriceElem),
        extract_product_info n = some r → n.priceElem = some pe →
        r.price = ((summary_price (some pe)).1 : Int)
        ∧ r.price_display = some ("¥" ++ formatComma (summary_price (some pe)).1))
    ∧ (∀ (n : ItemNode) (r : Product),
        extract_product_info n = some r → n.priceElem = none →
        r.price = 0 ∧ r.price_display = some "N/A")
    ∧ (summary_price (some { text := "12345円" })).1 = 12345
    ∧ (summary_price (some { text := "12345円" })).2 = "¥12,345"
    ∧ (∀ pe₁ pe₂ : PriceElem,
        (detail_extract_price (some pe₁)).1 = (detail_extract_price (some pe₂)).1 →
        (detail_extract_price (some pe₁)).2 = (detail_extract_price (some pe₂)).2)
    ∧ detail_extract_price none = (0, "N/A") := by
  have key : ∀ (n : ItemNode) (r : Product) (pe : PriceElem),
      extract_product_info n = some r → n.priceElem = some pe →
      r.price = ((summary_price (some pe)).1 : Int)
      ∧ r.price_display = some ("¥" ++ formatComma (summary_price (some pe)).1) := by
    intro n r pe h hpe
    have hf := extract_price_fields n r h
    rw [hpe] at hf
    exact ⟨hf.1, by rw [hf.2, summary_price_display]⟩
  refine ⟨?_, key, ?_, by decide, by decide, ?_, rfl⟩
  · intro n₁ n₂ r₁ r₂ h₁ h₂ hs₁ hs₂ hpeq
    obtain ⟨pe₁, hpe₁⟩ := Option.isSome_iff_exists.mp hs₁
    obtain ⟨pe₂, hpe₂⟩ := Option.isSome_iff_exists.mp hs₂
    have k₁ := key n₁ r₁ pe₁ h₁ hpe₁
    have k₂ := key n₂ r₂ pe₂ h₂ hpe₂
    have hnat : (summary_price (some pe₁)).1 = (summary_price (some pe₂)).1 := by
      have := hpeq
      rw [k₁.1, k₂.1] at this
      exact_mod_cast this
    rw [k₁.2, k₂.2, hnat]
  · intro n r h hpe
    have hf := extract_price_fields n r h
    rw [hpe] at hf
    exact ⟨hf.1, hf.2⟩
  · intro pe₁ pe₂ h
    rw [detail_price_display, detail_price_display, h]

theorem C1_priceDisplay_amended_witness :
    ({ id := some "m3", url := some "https://jp.mercari.com/item/m3",
       name := some "Unknown Product", price := 0, price_display := some "N/A",
       condition := some "See details", is_sold := false } : Product).price = 0
    ∧ ({ id := some "m3", url := some "https://jp.mercari.com/item/m3",
         name := some "Unknown Product", price := 0, price_display := some "N/A",
         condition := some "See details", is_sold := false } : Product).price_display
        = some "N/A" :=
  C1_priceDisplay_amended.2.2.1 { itemLinkHref := some "/item/m3" } _ (by decide) rfl

/-- C5: with priority `"price"`, the priority component of a candidate's
score is `100000 / price` when `price > 0` and `0` otherwise (the first
conjunct exhibits the full score as that component plus the separately
specified all-modes +5 completeness bonus, which is `0` for the example
products since they carry no `name`/`url`); consequently, on the three
example products the returned recommendation order is the 500-yen item
first, then 1000, then 2000 — price ascending. -/
theorem C5_price_priority_ranking :
    (∀ (avg : Option ℚ) (p : Product),
        (scoreProduct "price" avg p).score
          = (if 0 < p.price then (100000 : ℚ) / (p.price : ℚ) else 0)
            + (if completeInfo p then (5 : ℚ) else 0))
    ∧ ((analyze_products
          [{ price := 1000, condition := some "new" },
           { price := 2000, condition := some "new" },
           { price := 500, condition := some "used" }]
          (some { priority := some "price" })).recs.map (·.product)
        = [{ price := 500, condition := some "used" },
           { price := 1000, condition := some "new" },
           { price := 2000, condition := some "new" }])
    ∧ ((analyze_products
          [{ price := 1000, condition := some "new" },
           { price := 2000, condition := some "new" },
           { price := 500, condition := some "used" }]
          (some { priority := some "price" })).recs.map (·.rank) = [1, 2, 3]) := by
  have hgen : ∀ (avg : Option ℚ) (p : Product),
      (scoreProduct "price" avg p).score
        = (if 0 < p.price then (100000 : ℚ) / (p.price : ℚ) else 0)
          + (if completeInfo p then (5 : ℚ) else 0) := by
    intro avg p
    simp only [scoreProduct]
    cases hc : completeInfo p
    · by_cases hp : 0 < p.price <;> simp [hc, hp]
    · by_cases hp : 0 < p.price <;> simp [hc, hp]
  have sc1000 : (scoreProduct "price" none
      ({ price := 1000, condition := some "new" } : Product)).score = 100 := by
    rw [hgen]
    norm_num [completeInfo, truthyStr]
  have sc2000 : (scoreProduct "price" none
      ({ price := 2000, condition := some "new" } : Product)).score = 50 := by
    rw [hgen]
    norm_num [completeInfo, truthyStr]
  have sc500 : (scoreProduct "price" none
      ({ price := 500, condition := some "used" } : Product)).score = 200 := by
    rw [hgen]
    norm_num [completeInfo, truthyStr]
  have hfil : filteredProducts
      [{ price := 1000, condition := some "new" },
       { price := 2000, condition := some "new" },
       { price := 500, condition := some "used" }]
      (some { priority := some "price" })
      = [{ price := 1000, condition := some "new" },
         { price := 2000, condition := some "new" },
         { price := 500, condition := some "used" }] := by decide
  have hform := analyze_success_form
      [{ price := 1000, condition := some "new" },
       { price := 2000, condition := some "new" },
       { price := 500, condition := some "used" }]
      (some { priority := some "price" }) (by decide) (by rw [hfil]; decide)
  have hsc : scoredCandidates
      [{ price := 1000, condition := some "new" },
       { price := 2000, condition := some "new" },
       { price := 500, condition := some "used" }]
      (some { priority := some "price" })
      = [scoreProduct "price" none { price := 1000, condition := some "new" },
         scoreProduct "price" none { price := 2000, condition := some "new" },
         scoreProduct "price" none { price := 500, condition := some "used" }] := by
    simp only [scoredCandidates, hfil]
    simp [effPriority, defaultPrefs, avgOf]
  refine ⟨hgen, ?_, ?_⟩
  · rw [hform]
    show (mkRecs ((rankedCandidates _ _).take 3)).map (·.product) = _
    rw [rankedCandidates, hsc]
    norm_num [sortDesc, insertDesc, sc1000, sc2000, sc500, mkRecs, mkRecsAux,
      scoreProduct_product]
  · rw [hform]
    show (mkRecs ((rankedCandidates _ _).take 3)).map (·.rank) = _
    rw [rankedCandidates, hsc]
    norm_num [sortDesc, insertDesc, sc1000, sc2000, sc500, mkRecs, mkRecsAux]
